import Mathlib

set_option autoImplicit false

/-
Verification of the deployment lifecycle contract in
src/swerex/deployment/abstract.py, centred on the finalizer
AbstractDeployment.__del__ (the teardown supervisor), the task-completion
callback _log_task_done nested inside it, and the runtime / is_alive
access rules.

Modelling choices, stated once:
  - Exceptions are explicit: a computation returns a trace of observable
    events together with an optional uncaught exception
    (PyResult = List Event × Option PyExn).  Python try/except blocks are
    embedded by pyTryOn, which replays the handler only when the raised
    exception is one the clause catches.
  - The ambient conditions a finalizer invocation can meet are collected
    in Env: whether the interpreter is shutting down (sys.meta_path is
    None), whether self.logger calls succeed, whether
    asyncio.get_event_loop returns a loop, whether that loop is running,
    whether loop.create_task succeeds, how many time units stop() takes
    when driven synchronously, and whether stop() itself raises.
  - print, the raw diagnostic fallback write, is modelled as infallible;
    logger calls may raise (the source wraps every logger call in
    try/except with a print fallback, and treats print as the last
    resort).
  - The interpreter-shutdown flag is fixed for the duration of one
    finalizer invocation: the finalizer is a synchronous, single-threaded
    body, so the re-checks of sys.meta_path inside its exception handlers
    read the same value as the initial probe.  The completion callback
    runs later and therefore gets its own flag (CbEnv).
-/

namespace Swerex

/-- Lifecycle states of a deployment (spec section 3). -/
inductive DeploymentState
  | notStarted
  | starting
  | running
  | stopping
  | stopped
  | failed
deriving DecidableEq

/-- The exceptions the finalizer can meet: RuntimeError from
asyncio.get_event_loop, asyncio.TimeoutError from asyncio.wait_for, and
any other Exception. -/
inductive PyExn
  | runtimeError
  | timeoutError
  | otherError
deriving DecidableEq

/-- Where a diagnostic message is emitted: through self.logger, or through
the raw print fallback. -/
inductive Chan
  | logger
  | stdout
deriving DecidableEq

/-- The six distinct diagnostic messages appearing in __del__ and
_log_task_done. -/
inductive Msg
  | ensureStopped
  | noLoop
  | createTaskFailed
  | taskError
  | timeoutWarn
  | cleanupError
deriving DecidableEq

/-- Severity levels used by the source. -/
inductive LogLevel
  | debug
  | warning
  | error
deriving DecidableEq

/-- The level each message is emitted at in the source. -/
def msgLevel : Msg → LogLevel
  | .ensureStopped => .debug
  | .noLoop => .warning
  | .createTaskFailed => .error
  | .taskError => .error
  | .timeoutWarn => .warning
  | .cleanupError => .error

/-- Observable events of one finalizer invocation: diagnostic emissions
and scheduler interactions. -/
inductive Event
  | emit (c : Chan) (m : Msg)
  | probeLoop
  | taskScheduled
  | callbackAttached
  | syncWait
  | stopInitiated
deriving DecidableEq

/-- Result of an embedded Python computation: the events it emitted, and
the exception it left uncaught, if any. -/
abbrev PyResult := List Event × Option PyExn

/-- Normal completion with the given trace. -/
def pyOk (tr : List Event) : PyResult := (tr, none)

/-- Completion by raising, after emitting the given trace. -/
def pyRaise (tr : List Event) (ex : PyExn) : PyResult := (tr, some ex)

/-- Sequencing: run the continuation only when the first part did not
raise; events accumulate. -/
def pySeq (a : PyResult) (f : Unit → PyResult) : PyResult :=
  match a with
  | (tr, none) =>
    let r := f ()
    (tr ++ r.1, r.2)
  | (tr, some ex) => (tr, some ex)

/-- Embedding of a try/except block: the handler runs exactly when the
body raised an exception the clause catches; other exceptions keep
propagating. -/
def pyTryOn (catches : PyExn → Bool) (body : PyResult)
    (handler : PyExn → PyResult) : PyResult :=
  match body with
  | (tr, none) => (tr, none)
  | (tr, some ex) =>
    if catches ex then
      let r := handler ex
      (tr ++ r.1, r.2)
    else
      (tr, some ex)

/-- A call self.logger.level(m): emits on the logger channel when the
logging facility works, raises otherwise. -/
def loggerEmit (ok : Bool) (m : Msg) : PyResult :=
  if ok then pyOk [.emit .logger m] else pyRaise [] .otherError

/-- The raw fallback write print(m), modelled as infallible. -/
def printEmit (m : Msg) : PyResult := pyOk [.emit .stdout m]

/-- The recurring idiom try: self.logger.level(m) except Exception:
print(m). -/
def logOrPrint (ok : Bool) (m : Msg) : PyResult :=
  pyTryOn (fun _ => true) (loggerEmit ok m) (fun _ => printEmit m)

/-- Ambient conditions met by one invocation of __del__. -/
structure Env where
  sysMetaPathNone : Bool
  state : DeploymentState
  loggerOk : Bool
  loopAvailable : Bool
  loopRunning : Bool
  createTaskOk : Bool
  stopDuration : Nat
  stopRaises : Bool
deriving DecidableEq

/-- asyncio.get_event_loop(): returns a loop or raises RuntimeError.  The
call itself is the scheduler probe. -/
def getEventLoop (e : Env) : PyResult :=
  if e.loopAvailable then pyOk [.probeLoop] else pyRaise [.probeLoop] .runtimeError

/-- loop.create_task(self.stop()): on success the stop coroutine is
scheduled as a detached task; on failure the coroutine is never run. -/
def createTask (e : Env) : PyResult :=
  if e.createTaskOk then pyOk [.taskScheduled, .stopInitiated]
  else pyRaise [] .otherError

/-- task.add_done_callback(_log_task_done). -/
def addDoneCallback : PyResult := pyOk [.callbackAttached]

/-- loop.run_until_complete(asyncio.wait_for(self.stop(), timeout=30.0)):
drives stop synchronously; TimeoutError when stop exceeds 30 time units,
otherwise the outcome of stop itself. -/
def runUntilCompleteStop (e : Env) : PyResult :=
  if 30 < e.stopDuration then pyRaise [.syncWait, .stopInitiated] .timeoutError
  else if e.stopRaises then pyRaise [.syncWait, .stopInitiated] .otherError
  else pyOk [.syncWait, .stopInitiated]

/-- The running-loop branch of __del__ (source lines 71-97): schedule stop
as a detached task and attach the completion callback; on any failure,
re-check the shutdown flag, then log (or print) the error. -/
def runningLoopBranch (e : Env) : PyResult :=
  pyTryOn (fun _ => true)
    (pySeq (createTask e) (fun _ => addDoneCallback))
    (fun _ =>
      if e.sysMetaPathNone then pyOk []
      else logOrPrint e.loggerOk .createTaskFailed)

/-- The idle-loop branch of __del__ (source lines 98-120): drive stop
synchronously under the 30 time-unit bound; on TimeoutError re-check the
shutdown flag and warn; on any other Exception re-check and log the
error. -/
def idleLoopBranch (e : Env) : PyResult :=
  pyTryOn (fun _ => true)
    (pyTryOn (fun ex => decide (ex = .timeoutError))
      (runUntilCompleteStop e)
      (fun _ =>
        if e.sysMetaPathNone then pyOk []
        else logOrPrint e.loggerOk .timeoutWarn))
    (fun _ =>
      if e.sysMetaPathNone then pyOk []
      else logOrPrint e.loggerOk .cleanupError)

/-- Shallow embedding of AbstractDeployment.__del__ (source lines 44-120).
Shutdown probe first; then the best-effort debug notice; then the
scheduler probe wrapped in try/except RuntimeError whose handler warns
and returns; then the branch on loop.is_running(). -/
def delFinalizer (e : Env) : PyResult :=
  if e.sysMetaPathNone then pyOk []
  else
    pySeq (logOrPrint e.loggerOk .ensureStopped) (fun _ =>
      match getEventLoop e with
      | (tr, some ex) =>
        if ex = .runtimeError then
          let r := logOrPrint e.loggerOk .noLoop
          (tr ++ r.1, r.2)
        else (tr, some ex)
      | (tr, none) =>
        let r := if e.loopRunning then runningLoopBranch e else idleLoopBranch e
        (tr ++ r.1, r.2))

/-- Ambient conditions met by one invocation of the completion callback
_log_task_done, which runs later than __del__ and therefore carries its
own shutdown flag. -/
structure CbEnv where
  sysMetaPathNone : Bool
  excCallRaises : Bool
  taskFailed : Bool
  loggerOk : Bool
deriving DecidableEq

/-- Shallow embedding of _log_task_done (source lines 77-88): return at
once when the interpreter is shutting down; otherwise inspect
t.exception() and, when the task failed, log the error with a print
fallback; every exception met while inspecting or logging is swallowed by
the outer except-pass. -/
def logTaskDone (c : CbEnv) : PyResult :=
  if c.sysMetaPathNone then pyOk []
  else
    pyTryOn (fun _ => true)
      (if c.excCallRaises then pyRaise [] .otherError
       else if c.taskFailed then logOrPrint c.loggerOk .taskError
       else pyOk [])
      (fun _ => pyOk [])

/-- Abstract handle to the live sandbox owned by a running deployment. -/
structure AbstractRuntime where
  handle : Nat
deriving DecidableEq

/-- Boolean-convertible liveness result with diagnostic detail. -/
structure IsAliveResponse where
  is_alive : Bool
  message : String
deriving DecidableEq

/-- The error kind raised by runtime and is_alive when the deployment is
not running. -/
inductive DeploymentError
  | deploymentNotStartedError
deriving DecidableEq

/-- A deployment as far as the access-rule claims need it: its lifecycle
state, the runtime it owns, and the liveness answer its backend would
give. -/
structure Deployment where
  state : DeploymentState
  ownedRuntime : AbstractRuntime
  aliveResponse : IsAliveResponse
deriving DecidableEq

/-- Modelled from the spec: the runtime accessor is abstract in
abstract.py (its docstring promises DeploymentNotStartedError when the
deployment was not started); the spec fixes the behaviour as: return the
owned runtime if state is Running, otherwise fail with the not-started
error. -/
def runtime (d : Deployment) : Except DeploymentError AbstractRuntime :=
  if d.state = .running then .ok d.ownedRuntime
  else .error .deploymentNotStartedError

/-- Modelled from the spec: is_alive is abstract in abstract.py (its
docstring promises DeploymentNotStartedError when the deployment was not
started); the spec fixes the behaviour as: fail with the not-started
error when state is not Running, otherwise query the runtime.  The
timeout handling inside the running case is backend-specific and out of
scope. -/
def is_alive (d : Deployment) (_timeout : Option Nat) : Except DeploymentError IsAliveResponse :=
  if d.state = .running then .ok d.aliveResponse
  else .error .deploymentNotStartedError

/-- Number of emissions of a given message, on either channel. -/
def countMsg (m : Msg) (tr : List Event) : Nat :=
  tr.countP (fun ev =>
    match ev with
    | .emit _ m2 => decide (m2 = m)
    | _ => false)

/-- Number of occurrences of a given event. -/
def countEv (x : Event) (tr : List Event) : Nat :=
  tr.countP (fun ev => decide (ev = x))

/-- Whether an event is a warning-level emission. -/
def isWarning : Event → Bool
  | .emit _ m => decide (msgLevel m = .warning)
  | _ => false

/-- Number of warning-level emissions in a trace. -/
def countWarnings (tr : List Event) : Nat := tr.countP isWarning

/-- The channel the log-or-print idiom ends up emitting on. -/
def chanOf (ok : Bool) : Chan := if ok then .logger else .stdout

/-- Rebuild an environment with a different deployment state, all other
ambient conditions unchanged. -/
def setState (e : Env) (s : DeploymentState) : Env :=
  ⟨e.sysMetaPathNone, s, e.loggerOk, e.loopAvailable, e.loopRunning,
   e.createTaskOk, e.stopDuration, e.stopRaises⟩

/-- Rebuild an environment with a different stop duration and stop
outcome, all other ambient conditions unchanged. -/
def setStopTiming (e : Env) (d : Nat) (sr : Bool) : Env :=
  ⟨e.sysMetaPathNone, e.state, e.loggerOk, e.loopAvailable, e.loopRunning,
   e.createTaskOk, d, sr⟩

/-- Exact trace of the finalizer when the interpreter is shutting down. -/
theorem delFinalizer_shutdown (e : Env) (h : e.sysMetaPathNone = true) :
    delFinalizer e = ([], none) := by
  simp [delFinalizer, h, pyOk]

/-- Exact trace of the finalizer when no event loop is obtainable. -/
theorem delFinalizer_noLoop (e : Env) (h1 : e.sysMetaPathNone = false)
    (h2 : e.loopAvailable = false) :
    delFinalizer e =
      ([.emit (chanOf e.loggerOk) .ensureStopped, .probeLoop,
        .emit (chanOf e.loggerOk) .noLoop], none) := by
  cases hlg : e.loggerOk <;>
    simp [delFinalizer, getEventLoop, logOrPrint, loggerEmit, printEmit,
      pySeq, pyTryOn, pyOk, pyRaise, chanOf, h1, h2, hlg]

/-- Exact trace of the finalizer when the loop is running and the
detached task is created successfully. -/
theorem delFinalizer_running_ok (e : Env) (h1 : e.sysMetaPathNone = false)
    (h2 : e.loopAvailable = true) (h3 : e.loopRunning = true)
    (h4 : e.createTaskOk = true) :
    delFinalizer e =
      ([.emit (chanOf e.loggerOk) .ensureStopped, .probeLoop,
        .taskScheduled, .stopInitiated, .callbackAttached], none) := by
  cases hlg : e.loggerOk <;>
    simp [delFinalizer, runningLoopBranch, getEventLoop, createTask,
      addDoneCallback, logOrPrint, loggerEmit, printEmit,
      pySeq, pyTryOn, pyOk, pyRaise, chanOf, h1, h2, h3, h4, hlg]

/-- Exact trace of the finalizer when the loop is running but creating the
detached task fails. -/
theorem delFinalizer_running_fail (e : Env) (h1 : e.sysMetaPathNone = false)
    (h2 : e.loopAvailable = true) (h3 : e.loopRunning = true)
    (h4 : e.createTaskOk = false) :
    delFinalizer e =
      ([.emit (chanOf e.loggerOk) .ensureStopped, .probeLoop,
        .emit (chanOf e.loggerOk) .createTaskFailed], none) := by
  cases hlg : e.loggerOk <;>
    simp [delFinalizer, runningLoopBranch, getEventLoop, createTask,
      addDoneCallback, logOrPrint, loggerEmit, printEmit,
      pySeq, pyTryOn, pyOk, pyRaise, chanOf, h1, h2, h3, h4, hlg]

/-- Exact trace of the finalizer when the idle loop drives stop to
completion inside the 30 time-unit bound. -/
theorem delFinalizer_idle_ok (e : Env) (h1 : e.sysMetaPathNone = false)
    (h2 : e.loopAvailable = true) (h3 : e.loopRunning = false)
    (h4 : e.stopDuration ≤ 30) (h5 : e.stopRaises = false) :
    delFinalizer e =
      ([.emit (chanOf e.loggerOk) .ensureStopped, .probeLoop,
        .syncWait, .stopInitiated], none) := by
  have hd : ¬ 30 < e.stopDuration := by omega
  cases hlg : e.loggerOk <;>
    simp [delFinalizer, idleLoopBranch, runUntilCompleteStop, getEventLoop,
      logOrPrint, loggerEmit, printEmit,
      pySeq, pyTryOn, pyOk, pyRaise, chanOf, h1, h2, h3, h5, hd, hlg]

/-- Exact trace of the finalizer when the idle loop drives stop and the
30 time-unit bound is exceeded. -/
theorem delFinalizer_idle_timeout (e : Env) (h1 : e.sysMetaPathNone = false)
    (h2 : e.loopAvailable = true) (h3 : e.loopRunning = false)
    (h4 : 30 < e.stopDuration) :
    delFinalizer e =
      ([.emit (chanOf e.loggerOk) .ensureStopped, .probeLoop,
        .syncWait, .stopInitiated,
        .emit (chanOf e.loggerOk) .timeoutWarn], none) := by
  cases hlg : e.loggerOk <;>
    simp [delFinalizer, idleLoopBranch, runUntilCompleteStop, getEventLoop,
      logOrPrint, loggerEmit, printEmit,
      pySeq, pyTryOn, pyOk, pyRaise, chanOf, h1, h2, h3, h4, hlg]

/-- Exact trace of the finalizer when the idle loop drives stop and stop
raises inside the bound. -/
theorem delFinalizer_idle_error (e : Env) (h1 : e.sysMetaPathNone = false)
    (h2 : e.loopAvailable = true) (h3 : e.loopRunning = false)
    (h4 : e.stopDuration ≤ 30) (h5 : e.stopRaises = true) :
    delFinalizer e =
      ([.emit (chanOf e.loggerOk) .ensureStopped, .probeLoop,
        .syncWait, .stopInitiated,
        .emit (chanOf e.loggerOk) .cleanupError], none) := by
  have hd : ¬ 30 < e.stopDuration := by omega
  cases hlg : e.loggerOk <;>
    simp [delFinalizer, idleLoopBranch, runUntilCompleteStop, getEventLoop,
      logOrPrint, loggerEmit, printEmit,
      pySeq, pyTryOn, pyOk, pyRaise, chanOf, h1, h2, h3, h5, hd, hlg]

/-- The completion callback on each of its four paths. -/
theorem logTaskDone_cases (c : CbEnv) :
    logTaskDone c =
      (if c.sysMetaPathNone then ([], none)
       else if c.excCallRaises then ([], none)
       else if c.taskFailed then
         ([.emit (chanOf c.loggerOk) .taskError], none)
       else ([], none)) := by
  rcases c with ⟨mp, exc, tf, lg⟩
  cases mp <;> cases exc <;> cases tf <;> cases lg <;>
    simp [logTaskDone, logOrPrint, loggerEmit, printEmit,
      pyTryOn, pyOk, pyRaise, chanOf]

/-- C1: no invocation of the finalizer lets an exception propagate to its
caller: in every ambient environment (shutdown detected, logging failure,
no event loop, running loop, non-running loop, timeout, stop error) the
finalizer terminates with no uncaught exception. -/
theorem claim1_del_never_raises (e : Env) : (delFinalizer e).2 = none := by
  cases h1 : e.sysMetaPathNone
  · cases h2 : e.loopAvailable
    · rw [delFinalizer_noLoop e h1 h2]
    · cases h3 : e.loopRunning
      · by_cases h4 : 30 < e.stopDuration
        · rw [delFinalizer_idle_timeout e h1 h2 h3 h4]
        · cases h5 : e.stopRaises
          · rw [delFinalizer_idle_ok e h1 h2 h3 (by omega) h5]
          · rw [delFinalizer_idle_error e h1 h2 h3 (by omega) h5]
      · cases h4 : e.createTaskOk
        · rw [delFinalizer_running_fail e h1 h2 h3 h4]
        · rw [delFinalizer_running_ok e h1 h2 h3 h4]
  · rw [delFinalizer_shutdown e h1]

/-- C2 counterexample: a deployment whose state is already Stopped still
gets a synchronous wait and a stop drive from the finalizer (loop
obtainable and idle), refuting zero scheduler interaction for
Stopped/NotStarted states. -/
theorem claim2_counterexample :
    (⟨false, .stopped, true, true, false, true, 0, false⟩ : Env).state = .stopped ∧
    Event.syncWait ∈ (delFinalizer ⟨false, .stopped, true, true, false, true, 0, false⟩).1 ∧
    Event.stopInitiated ∈ (delFinalizer ⟨false, .stopped, true, true, false, true, 0, false⟩).1 := by
  refine ⟨rfl, ?_, ?_⟩ <;> decide

/-- C2 (amended): the finalizer never consults the deployment state — its
trace and outcome are identical for every state — so a deployment already
Stopped or NotStarted undergoes exactly the same scheduler interaction as
a Running one: whenever a loop is obtainable, an idle loop is driven
synchronously and a running loop receives a detached task. -/
theorem claim2_state_not_consulted (e : Env) (s : DeploymentState)
    (h1 : e.sysMetaPathNone = false) (h2 : e.loopAvailable = true) :
    delFinalizer (setState e s) = delFinalizer e ∧
    (e.loopRunning = false → Event.syncWait ∈ (delFinalizer e).1) ∧
    (e.loopRunning = true → e.createTaskOk = true →
      Event.taskScheduled ∈ (delFinalizer e).1) := by
  refine ⟨rfl, ?_, ?_⟩
  · intro h3
    by_cases h4 : 30 < e.stopDuration
    · rw [delFinalizer_idle_timeout e h1 h2 h3 h4]; simp
    · cases h5 : e.stopRaises
      · rw [delFinalizer_idle_ok e h1 h2 h3 (by omega) h5]; simp
      · rw [delFinalizer_idle_error e h1 h2 h3 (by omega) h5]; simp
  · intro h3 h4
    rw [delFinalizer_running_ok e h1 h2 h3 h4]; simp

/-- C2 witness: the amended statement at a concrete environment. -/
theorem claim2_witness :
    (⟨false, .running, true, true, false, true, 0, false⟩ : Env).sysMetaPathNone = false ∧
    (delFinalizer (setState ⟨false, .running, true, true, false, true, 0, false⟩ .stopped) =
       delFinalizer ⟨false, .running, true, true, false, true, 0, false⟩ ∧
     ((⟨false, .running, true, true, false, true, 0, false⟩ : Env).loopRunning = false →
       Event.syncWait ∈ (delFinalizer ⟨false, .running, true, true, false, true, 0, false⟩).1) ∧
     ((⟨false, .running, true, true, false, true, 0, false⟩ : Env).loopRunning = true →
       (⟨false, .running, true, true, false, true, 0, false⟩ : Env).createTaskOk = true →
       Event.taskScheduled ∈ (delFinalizer ⟨false, .running, true, true, false, true, 0, false⟩).1)) :=
  ⟨rfl, claim2_state_not_consulted _ .stopped rfl rfl⟩

/-- C3: when the host interpreter is mid-teardown the finalizer returns
immediately and silently: the whole invocation produces no event at all
(no log line, no scheduler interaction) and no exception. -/
theorem claim3_shutdown_silent (e : Env) (h : e.sysMetaPathNone = true) :
    delFinalizer e = ([], none) :=
  delFinalizer_shutdown e h

/-- C3 witness: the statement at a concrete environment. -/
theorem claim3_witness :
    (⟨true, .running, true, true, true, true, 0, false⟩ : Env).sysMetaPathNone = true ∧
    delFinalizer ⟨true, .running, true, true, true, true, 0, false⟩ = ([], none) :=
  ⟨rfl, claim3_shutdown_silent _ rfl⟩

/-- C4: with an obtainable, non-running loop, stop is driven synchronously
under the 30 time-unit bound; when stop exceeds the bound, exactly one
timeout warning is emitted (and it is the only warning), the stop drive
and the synchronous wait each happened exactly once (no retry, no
extension), and the finalizer returns with no uncaught exception. -/
theorem claim4_sync_timeout (e : Env)
    (h1 : e.sysMetaPathNone = false) (h2 : e.loopAvailable = true)
    (h3 : e.loopRunning = false) :
    Event.syncWait ∈ (delFinalizer e).1 ∧
    Event.stopInitiated ∈ (delFinalizer e).1 ∧
    (delFinalizer e).2 = none ∧
    (30 < e.stopDuration →
      countMsg .timeoutWarn (delFinalizer e).1 = 1 ∧
      countWarnings (delFinalizer e).1 = 1 ∧
      countEv .stopInitiated (delFinalizer e).1 = 1 ∧
      countEv .syncWait (delFinalizer e).1 = 1) := by
  by_cases h4 : 30 < e.stopDuration
  · rw [delFinalizer_idle_timeout e h1 h2 h3 h4]
    cases hlg : e.loggerOk <;>
      exact ⟨by decide, by decide, rfl, fun _ => by decide⟩
  · cases h5 : e.stopRaises
    · rw [delFinalizer_idle_ok e h1 h2 h3 (by omega) h5]
      cases hlg : e.loggerOk <;>
        exact ⟨by decide, by decide, rfl, fun hc => absurd hc h4⟩
    · rw [delFinalizer_idle_error e h1 h2 h3 (by omega) h5]
      cases hlg : e.loggerOk <;>
        exact ⟨by decide, by decide, rfl, fun hc => absurd hc h4⟩

/-- C4 witness: the statement at a concrete environment where stop takes
40 time units against the 30 time-unit budget. -/
theorem claim4_witness :
    (⟨false, .running, true, true, false, true, 40, false⟩ : Env).sysMetaPathNone = false ∧
    30 < (⟨false, .running, true, true, false, true, 40, false⟩ : Env).stopDuration ∧
    (countMsg .timeoutWarn (delFinalizer ⟨false, .running, true, true, false, true, 40, false⟩).1 = 1 ∧
     countWarnings (delFinalizer ⟨false, .running, true, true, false, true, 40, false⟩).1 = 1 ∧
     countEv .stopInitiated (delFinalizer ⟨false, .running, true, true, false, true, 40, false⟩).1 = 1 ∧
     countEv .syncWait (delFinalizer ⟨false, .running, true, true, false, true, 40, false⟩).1 = 1) :=
  ⟨rfl, by decide,
   (claim4_sync_timeout ⟨false, .running, true, true, false, true, 40, false⟩
     rfl rfl rfl).2.2.2 (by decide)⟩

/-- C5: with an obtainable, currently running loop, stop is scheduled as a
detached background task (the finalizer performs no synchronous wait), a
completion callback is attached, the detached branch enforces no timeout
or deadline (its behaviour is independent of how long stop takes or
whether it fails), and the completion callback itself never raises. -/
theorem claim5_detached_task (e : Env)
    (h1 : e.sysMetaPathNone = false) (h2 : e.loopAvailable = true)
    (h3 : e.loopRunning = true) (h4 : e.createTaskOk = true) :
    Event.taskScheduled ∈ (delFinalizer e).1 ∧
    Event.stopInitiated ∈ (delFinalizer e).1 ∧
    Event.callbackAttached ∈ (delFinalizer e).1 ∧
    Event.syncWait ∉ (delFinalizer e).1 ∧
    (∀ (d : Nat) (sr : Bool), delFinalizer (setStopTiming e d sr) = delFinalizer e) ∧
    (∀ c : CbEnv, (logTaskDone c).2 = none) := by
  have base := delFinalizer_running_ok e h1 h2 h3 h4
  rw [base]
  refine ⟨by simp, by simp, by simp, by simp, ?_, ?_⟩
  · intro d sr
    rw [delFinalizer_running_ok (setStopTiming e d sr) h1 h2 h3 h4]
    rfl
  · intro c
    rw [logTaskDone_cases c]
    rcases c with ⟨mp, exc, tf, lg⟩
    cases mp <;> cases exc <;> cases tf <;> rfl

/-- C5 witness: the statement at a concrete environment. -/
theorem claim5_witness :
    (⟨false, .running, true, true, true, true, 0, false⟩ : Env).loopRunning = true ∧
    (Event.taskScheduled ∈ (delFinalizer ⟨false, .running, true, true, true, true, 0, false⟩).1 ∧
     Event.stopInitiated ∈ (delFinalizer ⟨false, .running, true, true, true, true, 0, false⟩).1 ∧
     Event.callbackAttached ∈ (delFinalizer ⟨false, .running, true, true, true, true, 0, false⟩).1 ∧
     Event.syncWait ∉ (delFinalizer ⟨false, .running, true, true, true, true, 0, false⟩).1 ∧
     (∀ (d : Nat) (sr : Bool),
       delFinalizer (setStopTiming ⟨false, .running, true, true, true, true, 0, false⟩ d sr) =
         delFinalizer ⟨false, .running, true, true, true, true, 0, false⟩) ∧
     (∀ c : CbEnv, (logTaskDone c).2 = none)) :=
  ⟨rfl, claim5_detached_task _ rfl rfl rfl rfl⟩

/-- C6: when no event loop is obtainable, the finalizer emits exactly one
warning (the no-loop warning, the only warning of the invocation), never
initiates stop, schedules no task, runs no synchronous wait, and returns
with no uncaught exception. -/
theorem claim6_no_loop_warns (e : Env)
    (h1 : e.sysMetaPathNone = false) (h2 : e.loopAvailable = false) :
    (delFinalizer e).2 = none ∧
    countMsg .noLoop (delFinalizer e).1 = 1 ∧
    countWarnings (delFinalizer e).1 = 1 ∧
    countEv .stopInitiated (delFinalizer e).1 = 0 ∧
    countEv .taskScheduled (delFinalizer e).1 = 0 ∧
    countEv .syncWait (delFinalizer e).1 = 0 := by
  rw [delFinalizer_noLoop e h1 h2]
  cases hlg : e.loggerOk <;> decide

/-- C6 witness: the statement at a concrete environment. -/
theorem claim6_witness :
    (⟨false, .running, true, false, false, true, 0, false⟩ : Env).loopAvailable = false ∧
    (countMsg .noLoop (delFinalizer ⟨false, .running, true, false, false, true, 0, false⟩).1 = 1 ∧
     countEv .stopInitiated (delFinalizer ⟨false, .running, true, false, false, true, 0, false⟩).1 = 0) :=
  ⟨rfl,
   (claim6_no_loop_warns ⟨false, .running, true, false, false, true, 0, false⟩ rfl rfl).2.1,
   (claim6_no_loop_warns ⟨false, .running, true, false, false, true, 0, false⟩ rfl rfl).2.2.2.1⟩

/-- C7: every invocation that passes the shutdown probe emits the
debug-level implicit-cleanup notice as its very first event, before the
scheduler probe; when the logging facility raises, the notice falls back
to the raw print channel and the teardown attempt still continues to the
scheduler probe. -/
theorem claim7_notice_before_probe (e : Env) (h1 : e.sysMetaPathNone = false) :
    (delFinalizer e).1.take 2 =
      [.emit (chanOf e.loggerOk) .ensureStopped, .probeLoop] ∧
    msgLevel .ensureStopped = .debug ∧
    (e.loggerOk = false →
      (delFinalizer e).1.take 2 = [.emit .stdout .ensureStopped, .probeLoop]) := by
  have key : (delFinalizer e).1.take 2 =
      [.emit (chanOf e.loggerOk) .ensureStopped, .probeLoop] := by
    cases h2 : e.loopAvailable
    · rw [delFinalizer_noLoop e h1 h2]; rfl
    · cases h3 : e.loopRunning
      · by_cases h4 : 30 < e.stopDuration
        · rw [delFinalizer_idle_timeout e h1 h2 h3 h4]; rfl
        · cases h5 : e.stopRaises
          · rw [delFinalizer_idle_ok e h1 h2 h3 (by omega) h5]; rfl
          · rw [delFinalizer_idle_error e h1 h2 h3 (by omega) h5]; rfl
      · cases h4 : e.createTaskOk
        · rw [delFinalizer_running_fail e h1 h2 h3 h4]; rfl
        · rw [delFinalizer_running_ok e h1 h2 h3 h4]; rfl
  refine ⟨key, rfl, fun hlg => ?_⟩
  rw [key, hlg]
  rfl

/-- C7 witness: the statement at a concrete environment with a broken
logging facility. -/
theorem claim7_witness :
    (⟨false, .running, false, true, false, true, 0, false⟩ : Env).sysMetaPathNone = false ∧
    ((delFinalizer ⟨false, .running, false, true, false, true, 0, false⟩).1.take 2 =
       [.emit (chanOf (⟨false, .running, false, true, false, true, 0, false⟩ : Env).loggerOk)
          .ensureStopped, .probeLoop] ∧
     msgLevel .ensureStopped = .debug ∧
     ((⟨false, .running, false, true, false, true, 0, false⟩ : Env).loggerOk = false →
       (delFinalizer ⟨false, .running, false, true, false, true, 0, false⟩).1.take 2 =
         [.emit .stdout .ensureStopped, .probeLoop])) :=
  ⟨rfl, claim7_notice_before_probe _ rfl⟩

/-- C8: whenever the deployment state is not Running (before start, after
stop, or in any other non-running state), both the runtime accessor and
is_alive fail, and with the same error kind: the not-started error. -/
theorem claim8_not_started_error (d : Deployment) (h : d.state ≠ .running) :
    runtime d = .error .deploymentNotStartedError ∧
    (∀ t : Option Nat, is_alive d t = .error .deploymentNotStartedError) := by
  refine ⟨?_, fun t => ?_⟩
  · simp [runtime, h]
  · simp [is_alive, h]

/-- C8 witness: the statement at a concrete stopped deployment. -/
theorem claim8_witness :
    ((⟨.stopped, ⟨0⟩, ⟨true, ""⟩⟩ : Deployment).state ≠ .running) ∧
    (runtime ⟨.stopped, ⟨0⟩, ⟨true, ""⟩⟩ = .error .deploymentNotStartedError ∧
     ∀ t : Option Nat,
       is_alive ⟨.stopped, ⟨0⟩, ⟨true, ""⟩⟩ t = .error .deploymentNotStartedError) :=
  ⟨by decide, claim8_not_started_error _ (by decide)⟩

/-- C9: the done-callback attached to the detached cleanup task never
leaves an exception uncaught; when the interpreter is shutting down it
does nothing; when the task failed it logs the error exactly once
(through the logger or the print fallback); and when inspecting the task
result raises, the exception is swallowed with nothing emitted. -/
theorem claim9_callback_never_raises (c : CbEnv) :
    (logTaskDone c).2 = none ∧
    (c.sysMetaPathNone = true → logTaskDone c = ([], none)) ∧
    (c.sysMetaPathNone = false → c.excCallRaises = false → c.taskFailed = true →
      countMsg .taskError (logTaskDone c).1 = 1) ∧
    (c.excCallRaises = true → countMsg .taskError (logTaskDone c).1 = 0) := by
  rcases c with ⟨mp, exc, tf, lg⟩
  cases mp <;> cases exc <;> cases tf <;> cases lg <;> decide

/-- C9 witness: the statement at a concrete callback environment with a
failed task. -/
theorem claim9_witness :
    (logTaskDone ⟨false, false, true, true⟩).2 = none ∧
    countMsg .taskError (logTaskDone ⟨false, false, true, true⟩).1 = 1 :=
  ⟨(claim9_callback_never_raises ⟨false, false, true, true⟩).1,
   (claim9_callback_never_raises ⟨false, false, true, true⟩).2.2.1 rfl rfl rfl⟩

/-- C10: one finalizer invocation initiates stop at most once, never both
schedules a detached task and runs a synchronous wait, and whenever the
no-loop warning was emitted, stop was never initiated at all. -/
theorem claim10_single_stop (e : Env) :
    countEv .stopInitiated (delFinalizer e).1 ≤ 1 ∧
    ¬(Event.taskScheduled ∈ (delFinalizer e).1 ∧ Event.syncWait ∈ (delFinalizer e).1) ∧
    (countMsg .noLoop (delFinalizer e).1 ≠ 0 →
      countEv .stopInitiated (delFinalizer e).1 = 0) := by
  cases h1 : e.sysMetaPathNone
  · cases h2 : e.loopAvailable
    · rw [delFinalizer_noLoop e h1 h2]
      cases hlg : e.loggerOk <;> decide
    · cases h3 : e.loopRunning
      · by_cases h4 : 30 < e.stopDuration
        · rw [delFinalizer_idle_timeout e h1 h2 h3 h4]
          cases hlg : e.loggerOk <;> decide
        · cases h5 : e.stopRaises
          · rw [delFinalizer_idle_ok e h1 h2 h3 (by omega) h5]
            cases hlg : e.loggerOk <;> decide
          · rw [delFinalizer_idle_error e h1 h2 h3 (by omega) h5]
            cases hlg : e.loggerOk <;> decide
      · cases h4 : e.createTaskOk
        · rw [delFinalizer_running_fail e h1 h2 h3 h4]
          cases hlg : e.loggerOk <;> decide
        · rw [delFinalizer_running_ok e h1 h2 h3 h4]
          cases hlg : e.loggerOk <;> decide
  · rw [delFinalizer_shutdown e h1]
    decide

/-- C10 witness: the statement at a concrete environment where the
no-loop warning fires. -/
theorem claim10_witness :
    countEv .stopInitiated (delFinalizer ⟨false, .running, true, false, false, true, 0, false⟩).1 ≤ 1 ∧
    ¬(Event.taskScheduled ∈ (delFinalizer ⟨false, .running, true, false, false, true, 0, false⟩).1 ∧
      Event.syncWait ∈ (delFinalizer ⟨false, .running, true, false, false, true, 0, false⟩).1) ∧
    (countMsg .noLoop (delFinalizer ⟨false, .running, true, false, false, true, 0, false⟩).1 ≠ 0 →
      countEv .stopInitiated (delFinalizer ⟨false, .running, true, false, false, true, 0, false⟩).1 = 0) :=
  claim10_single_stop ⟨false, .running, true, false, false, true, 0, false⟩

end Swerex
